import Mathlib

/-!
Shallow embedding of the hl7push message-dispatch client: configuration
validation, store-name generation, base64 framing of the ingest request
and its acknowledgement, rate-limiter selection, token-source resolution,
and acknowledgement classification.  Bytes are modelled as `Nat` values
below 256; external collaborators (HTTP transport, OAuth library, HL7
parser) are parameters.
-/

/-- The standard base64 alphabet, as used by Go base64.StdEncoding. -/
def b64Alphabet : List Char :=
  "ABCDEFGHIJKLMNOPQRSTUVWXYZabcdefghijklmnopqrstuvwxyz0123456789+/".toList

/-- Character for a 6-bit group. -/
def b64Char (i : Nat) : Char := b64Alphabet.getD i 'A'

/-- Inverse lookup in the base64 alphabet. -/
def b64Index (c : Char) : Option Nat :=
  if c ∈ b64Alphabet then some (b64Alphabet.indexOf c) else none

/-- Encode bytes in 3-byte groups into base64 characters with padding,
as Go base64.StdEncoding.EncodeToString does. -/
def b64EncodeChunks : List Nat → List Char
  | [] => []
  | [a] => [b64Char (a / 4), b64Char (a % 4 * 16), '=', '=']
  | [a, b] => [b64Char (a / 4), b64Char (a % 4 * 16 + b / 16), b64Char (b % 16 * 4), '=']
  | a :: b :: c :: rest =>
    b64Char (a / 4) :: b64Char (a % 4 * 16 + b / 16) :: b64Char (b % 16 * 4 + c / 64)
      :: b64Char (c % 64) :: b64EncodeChunks rest

/-- Decode base64 characters in 4-character quanta, padding allowed only in
the final quantum, as Go base64.StdEncoding.DecodeString does; `none` is the
error case (Go: illegal base64 data). -/
def b64DecodeChunks : List Char → Option (List Nat)
  | [] => some []
  | c1 :: c2 :: c3 :: c4 :: rest =>
    match b64Index c1, b64Index c2 with
    | some i1, some i2 =>
      if c3 = '=' then
        if c4 = '=' then
          if rest = [] then some [i1 * 4 + i2 / 16] else none
        else none
      else
        match b64Index c3 with
        | some i3 =>
          if c4 = '=' then
            if rest = [] then some [i1 * 4 + i2 / 16, i2 % 16 * 16 + i3 / 4] else none
          else
            match b64Index c4 with
            | some i4 =>
              match b64DecodeChunks rest with
              | some bs => some ((i1 * 4 + i2 / 16) :: (i2 % 16 * 16 + i3 / 4)
                  :: (i3 % 4 * 64 + i4) :: bs)
              | none => none
            | none => none
        | none => none
    | _, _ => none
  | _ => none

/-- Go base64.StdEncoding.EncodeToString. -/
def base64EncodeToString (data : List Nat) : String := String.mk (b64EncodeChunks data)

/-- Go base64.StdEncoding.DecodeString; `none` is the error case. -/
def base64DecodeString (s : String) : Option (List Nat) := b64DecodeChunks s.toList

/-! Constants of the client source file. -/

def scope : String := "https://www.googleapis.com/auth/cloud-healthcare"

def projectsPath : String := "projects"

def locationsPath : String := "locations"

def datasetsPath : String := "datasets"

def hl7storePath : String := "hl7V2Stores"

def apiFormatHeader : String := "X-GOOG-API-FORMAT-VERSION"

/-- Go struct Config (credential path, four resource identifiers, rate limit). -/
structure Config where
  Credential : String
  ProjectID : String
  LocationID : String
  DatasetID : String
  HL7StoreID : String
  RateLimit : Int
deriving Repr, DecidableEq

/-- Go Config.Validate: fail fast on the first empty identifier, in the order
project, location, dataset, store; `none` means the nil error (success). -/
def Config.Validate (c : Config) : Option String :=
  if c.ProjectID = "" then some "missing project id"
  else if c.LocationID = "" then some "missing location id"
  else if c.DatasetID = "" then some "missing dataset id"
  else if c.HL7StoreID = "" then some "missing hl7 store id"
  else none

/-- Go genStoreName: join the fixed path labels and the four identifiers with a slash. -/
def genStoreName (config : Config) : String :=
  String.intercalate "/" [projectsPath, config.ProjectID, locationsPath, config.LocationID,
    datasetsPath, config.DatasetID, hl7storePath, config.HL7StoreID]

/-- Go healthcare.Message (the fields the client reads or writes). -/
structure Message where
  Name : String
  Labels : List (String × String)
  Data : String
deriving Repr, DecidableEq

/-- Go healthcare.IngestMessageRequest. -/
structure IngestMessageRequest where
  Message : Message
deriving Repr, DecidableEq

/-- Go healthcare.IngestMessageResponse: stored message plus base64 ack field. -/
structure IngestMessageResponse where
  Message : Message
  Hl7Ack : String
deriving Repr, DecidableEq

/-- Go healthcare.ListMessagesResponse. -/
structure ListMessagesResponse where
  Hl7V2Messages : List Message
deriving Repr, DecidableEq

/-- One outbound HTTP request of the client, with the headers attached to it. -/
inductive HttpCall where
  | ingest (storeName : String) (req : IngestMessageRequest) (headers : List (String × String))
  | getMsg (path : String) (headers : List (String × String))
  | listMsgs (storeName : String) (headers : List (String × String))
deriving Repr, DecidableEq

/-- Headers attached to an outbound HTTP request. -/
def HttpCall.headers : HttpCall → List (String × String)
  | .ingest _ _ hs => hs
  | .getMsg _ hs => hs
  | .listMsgs _ hs => hs

/-- Observable effects of a client operation: taking a rate-limit permit and
issuing an HTTP request, in program order. -/
inductive Event where
  | take
  | request (c : HttpCall)
deriving Repr, DecidableEq

/-- An event trace of a client operation. -/
abbrev EventTrace := List Event

/-- The remote healthcare service (go store service handle), as a parameter:
each field is the Do() outcome of the corresponding prepared call. -/
structure Transport where
  ingest : String → IngestMessageRequest → List (String × String) →
    Except String IngestMessageResponse
  getMsg : String → List (String × String) → Except String Message
  listMsgs : String → List (String × String) → Except String ListMessagesResponse

/-- The two rate.Limiter implementations chosen by NewClient:
go ratelimit.New(rate) and ratelimit.NewUnlimited(). -/
inductive Limiter where
  | fixedRate (rate : Int)
  | unlimited
deriving Repr, DecidableEq

/-- Go struct client (the store service handle is the Transport parameter of
each operation). -/
structure client where
  config : Config
  limiter : Limiter
deriving Repr, DecidableEq

/-- Go NewClient: validate the config, initialize the HL7 store handle
(`storeInit` stands for the outcome of initHL7Store, an external auth/network
effect), then select the limiter: fixed-rate when RateLimit > 0, unlimited
otherwise. -/
def NewClient (storeInit : Except String Unit) (config : Config) : Except String client :=
  match config.Validate with
  | some e => .error e
  | none =>
    match storeInit with
    | .error e => .error e
    | .ok _ =>
      let rl : Limiter :=
        if config.RateLimit > 0 then .fixedRate config.RateLimit else .unlimited
      .ok { config := config, limiter := rl }

/-- The IngestMessageRequest built by Send: empty labels, data field holding
the standard-base64 encoding of the input bytes. -/
def sendRequest (data : List Nat) : IngestMessageRequest :=
  ⟨{ Name := "", Labels := [], Data := base64EncodeToString data }⟩

/-- Go client.Send: take a permit, build the ingest request, issue it to
genStoreName with the API-format header, and on success decode the Hl7Ack
field from base64.  Result mirrors the Go triple (data bytes or nil,
resultpath, error or nil); second component is the event trace. -/
def client.Send (c : client) (t : Transport) (data : List Nat) :
    (Option (List Nat) × String × Option String) × EventTrace :=
  let req := sendRequest data
  let storeName := genStoreName c.config
  let hs := [(apiFormatHeader, "2")]
  let res :=
    match t.ingest storeName req hs with
    | .error e => (none, "", some e)
    | .ok resp =>
      match base64DecodeString resp.Hl7Ack with
      | none => (none, "", some "illegal base64 data")
      | some r => (some r, resp.Message.Name, none)
  (res, [Event.take, Event.request (HttpCall.ingest storeName req hs)])

/-- Go client.List: take a permit, GET the store's messages collection with
the API-format header. -/
def client.List (c : client) (t : Transport) :
    Except String ListMessagesResponse × EventTrace :=
  let storeName := genStoreName c.config
  let hs := [(apiFormatHeader, "2")]
  (t.listMsgs storeName hs, [Event.take, Event.request (HttpCall.listMsgs storeName hs)])

/-- Go client.Get: take a permit, GET the message at `path` with the
API-format header. -/
def client.Get (c : client) (t : Transport) (path : String) :
    Except String Message × EventTrace :=
  let hs := [(apiFormatHeader, "2")]
  (t.getMsg path hs, [Event.take, Event.request (HttpCall.getMsg path hs)])

/-- Go client.GetByID: fmt.Sprintf of the store name, "/messages/" and the id,
then delegate to Get. -/
def client.GetByID (c : client) (t : Transport) (id : String) :
    Except String Message × EventTrace :=
  let path := genStoreName c.config ++ "/messages/" ++ id
  c.Get t path

/-- Count the rate-limit permits taken in an event trace. -/
def takeCount (evs : EventTrace) : Nat :=
  evs.countP fun e => match e with | .take => true | _ => false

/-- True when the event, if it is an HTTP request, carries the fixed
API-format-version header with value 2. -/
def eventHasApiHeader : Event → Bool
  | .take => true
  | .request hc => hc.headers.contains (apiFormatHeader, "2")

/-- Observable effects of token-source resolution. -/
inductive TokenEvent where
  | ambientLookup (scopes : List String)
  | fileRead (path : String)
  | parseCredentials (scopes : List String)
deriving Repr, DecidableEq

/-- An oauth2.TokenSource handle, abstract. -/
structure TokenSrc where
  srcId : String
deriving Repr, DecidableEq

/-- Go google.Credentials (the field the client reads). -/
structure Credentials where
  TokenSource : TokenSrc
deriving Repr, DecidableEq

/-- The external OAuth library and filesystem, as parameters: the outcomes of
google.DefaultTokenSource, ioutil.ReadFile and google.CredentialsFromJSON. -/
structure TokenEnv where
  defaultTokenSource : List String → Except String TokenSrc
  readFile : String → Except String (List Nat)
  credentialsFromJSON : List Nat → List String → Except String Credentials

/-- Go tokenSource: ambient default chain when cred is empty; otherwise read
the credential file (propagating the read error) and parse it as credential
material (propagating the parse error), returning the bound token source.
Second component is the trace of resolution effects. -/
def tokenSource (env : TokenEnv) (cred : String) (scopes : List String) :
    Except String TokenSrc × List TokenEvent :=
  if cred = "" then
    (env.defaultTokenSource scopes, [TokenEvent.ambientLookup scopes])
  else
    match env.readFile cred with
    | .error e => (.error e, [TokenEvent.fileRead cred])
    | .ok j =>
      match env.credentialsFromJSON j scopes with
      | .error e =>
        (.error e, [TokenEvent.fileRead cred, TokenEvent.parseCredentials scopes])
      | .ok c =>
        (.ok c.TokenSource, [TokenEvent.fileRead cred, TokenEvent.parseCredentials scopes])

/-- A parsed HL7 message of the external go-hl7 library, abstract: checkAck
only observes it through the library's MessageType accessor. -/
structure HL7Message where
  segments : List (List String)
deriving Repr, DecidableEq

/-- The external go-hl7 library, as parameters: hl7.ParseMessage (with its
sanitize flag) and hl7.MessageType. -/
structure HL7Env where
  ParseMessage : List Nat → Bool → Except String HL7Message
  MessageType : HL7Message → String

/-- Go checkAck: parse the acknowledgement bytes (sanitize flag true),
propagating the parse error; then switch on the message type code:
ACK is accepted (nil error), NACK and anything else yield the two distinct
error values of the source. -/
def checkAck (env : HL7Env) (b : List Nat) : Option String :=
  match env.ParseMessage b true with
  | .error e => some e
  | .ok ack =>
    if env.MessageType ack = "ACK" then none
    else if env.MessageType ack = "NACK" then some "receiving system returned nack"
    else some "invalid ack response"

/-- Modelled from the spec: the path getById builds, the store address
followed by "/messages/" followed by the id. -/
def specMessagePath (storeAddress id : String) : String :=
  storeAddress ++ "/messages/" ++ id

/-- Concrete ack bytes for the witnesses. -/
def ackW : List Nat := [65, 67, 75]

/-- Concrete successful ingest response for the C1 witness. -/
def respW : IngestMessageResponse :=
  ⟨⟨"projects/p/locations/l/datasets/d/hl7V2Stores/s/messages/m1", [], ""⟩,
   base64EncodeToString ackW⟩

/-- Mocked transport whose ingest always succeeds with respW. -/
def transpW : Transport :=
  ⟨fun _ _ _ => .ok respW, fun _ _ => .error "unused", fun _ _ => .error "unused"⟩

/-- Concrete client for the witnesses. -/
def clientW : client := ⟨⟨"", "p", "l", "d", "s", 0⟩, .unlimited⟩

/-- Ingest response with a non-base64 ack field and a non-empty stored name. -/
def respBad : IngestMessageResponse :=
  ⟨⟨"projects/p/locations/l/datasets/d/hl7V2Stores/s/messages/m2", [], ""⟩, "!"⟩

/-- Mocked transport whose ingest always succeeds with respBad. -/
def transpBad : Transport :=
  ⟨fun _ _ _ => .ok respBad, fun _ _ => .error "unused", fun _ _ => .error "unused"⟩

/-- Mocked go-hl7 library for the C2 witness: byte 1 parses to an ACK-typed
message, byte 2 to a NACK-typed one, byte 3 to another type, anything else
fails to parse. -/
def hl7EnvW : HL7Env :=
  ⟨fun b _ =>
      if b = [1] then .ok ⟨[["MSH"], ["MSA", "AA"]]⟩
      else if b = [2] then .ok ⟨[["NAK"]]⟩
      else if b = [3] then .ok ⟨[["XXX"]]⟩
      else .error "parse failure",
   fun m =>
      if m.segments = [["MSH"], ["MSA", "AA"]] then "ACK"
      else if m.segments = [["NAK"]] then "NACK"
      else "XXX"⟩

/-- Mocked OAuth environment for the C8 witness: creds.json reads and parses,
bad.json reads but holds malformed material, everything else is unreadable. -/
def tokenEnvW : TokenEnv :=
  ⟨fun _ => .ok ⟨"ambient"⟩,
   fun p =>
      if p = "creds.json" then .ok [123]
      else if p = "bad.json" then .ok [99]
      else .error "read failure",
   fun j _ => if j = [123] then .ok ⟨⟨"file-bound"⟩⟩ else .error "parse failure"⟩

/-! Supporting lemmas and claim theorems. -/

theorem b64Index_b64Char : ∀ i : Nat, i < 64 → b64Index (b64Char i) = some i := by
  decide

theorem b64Char_ne_pad : ∀ i : Nat, i < 64 → b64Char i ≠ '=' := by
  decide

theorem b64_roundtrip_chunks : ∀ data : List Nat, (∀ b ∈ data, b < 256) →
    b64DecodeChunks (b64EncodeChunks data) = some data := by
  intro data
  induction data using b64EncodeChunks.induct with
  | case1 =>
    intro _
    simp only [b64EncodeChunks, b64DecodeChunks]
  | case2 a =>
    intro h
    have ha : a < 256 := h a (by simp)
    have h1 : a / 4 < 64 := by omega
    have h2 : a % 4 * 16 < 64 := by omega
    have e1 : a / 4 * 4 + a % 4 * 16 / 16 = a := by omega
    simp only [b64EncodeChunks, b64DecodeChunks, b64Index_b64Char _ h1, b64Index_b64Char _ h2,
      if_pos rfl, if_true, e1]
  | case3 a b =>
    intro h
    have ha : a < 256 := h a (by simp)
    have hb : b < 256 := h b (by simp)
    have h1 : a / 4 < 64 := by omega
    have h2 : a % 4 * 16 + b / 16 < 64 := by omega
    have h3 : b % 16 * 4 < 64 := by omega
    have e1 : a / 4 * 4 + (a % 4 * 16 + b / 16) / 16 = a := by omega
    have e2 : (a % 4 * 16 + b / 16) % 16 * 16 + b % 16 * 4 / 4 = b := by omega
    simp only [b64EncodeChunks, b64DecodeChunks, b64Index_b64Char _ h1, b64Index_b64Char _ h2,
      b64Index_b64Char _ h3, if_neg (b64Char_ne_pad _ h3), if_pos rfl, if_true, e1, e2]
  | case4 a b c rest ih =>
    intro h
    have ha : a < 256 := h a (by simp)
    have hb : b < 256 := h b (by simp)
    have hc : c < 256 := h c (by simp)
    have h1 : a / 4 < 64 := by omega
    have h2 : a % 4 * 16 + b / 16 < 64 := by omega
    have h3 : b % 16 * 4 + c / 64 < 64 := by omega
    have h4 : c % 64 < 64 := by omega
    have hrest : ∀ x ∈ rest, x < 256 := by
      intro x hx; exact h x (by simp [hx])
    have e1 : a / 4 * 4 + (a % 4 * 16 + b / 16) / 16 = a := by omega
    have e2 : (a % 4 * 16 + b / 16) % 16 * 16 + (b % 16 * 4 + c / 64) / 4 = b := by omega
    have e3 : (b % 16 * 4 + c / 64) % 4 * 64 + c % 64 = c := by omega
    simp only [b64EncodeChunks, b64DecodeChunks, b64Index_b64Char _ h1, b64Index_b64Char _ h2,
      b64Index_b64Char _ h3, b64Index_b64Char _ h4, if_neg (b64Char_ne_pad _ h3),
      if_neg (b64Char_ne_pad _ h4), ih hrest, e1, e2, e3]

theorem base64_roundtrip (data : List Nat) (h : ∀ b ∈ data, b < 256) :
    base64DecodeString (base64EncodeToString data) = some data := by
  unfold base64DecodeString base64EncodeToString
  have : (String.mk (b64EncodeChunks data)).toList = b64EncodeChunks data := rfl
  rw [this, b64_roundtrip_chunks data h]

/-- C3: Validate succeeds exactly when all four identifiers (project,
location, dataset, store) are non-empty, regardless of the RateLimit field;
when an identifier is empty it fails fast with the error naming the first
missing identifier in the order project, location, dataset, store. -/
theorem Validate_iff_ids_nonempty (c : Config) :
    (c.Validate = none ↔
      c.ProjectID ≠ "" ∧ c.LocationID ≠ "" ∧ c.DatasetID ≠ "" ∧ c.HL7StoreID ≠ "") ∧
    (∀ r : Int, Config.Validate
      ⟨c.Credential, c.ProjectID, c.LocationID, c.DatasetID, c.HL7StoreID, r⟩ = c.Validate) ∧
    (c.ProjectID = "" → c.Validate = some "missing project id") ∧
    (c.ProjectID ≠ "" → c.LocationID = "" → c.Validate = some "missing location id") ∧
    (c.ProjectID ≠ "" → c.LocationID ≠ "" → c.DatasetID = "" →
      c.Validate = some "missing dataset id") ∧
    (c.ProjectID ≠ "" → c.LocationID ≠ "" → c.DatasetID ≠ "" → c.HL7StoreID = "" →
      c.Validate = some "missing hl7 store id") := by
  simp only [Config.Validate]
  split_ifs with h1 h2 h3 h4 <;> simp_all

/-- C3 witness: a fully populated config with a negative rate limit
validates; an empty project id is reported as the missing project id. -/
theorem Validate_iff_ids_nonempty_witness :
    Config.Validate ⟨"", "p", "l", "d", "s", -5⟩ = none ∧
    Config.Validate ⟨"", "", "l", "d", "s", 1⟩ = some "missing project id" :=
  ⟨(Validate_iff_ids_nonempty ⟨"", "p", "l", "d", "s", -5⟩).1.mpr (by decide),
   (Validate_iff_ids_nonempty ⟨"", "", "l", "d", "s", 1⟩).2.2.1 rfl⟩

/-- C4: the derived store address is exactly the four identifiers joined
under the fixed path segment labels, and in particular for identifiers
p, l, d, s it is "projects/p/locations/l/datasets/d/hl7V2Stores/s". -/
theorem genStoreName_concatenation (c : Config) :
    genStoreName c = "projects/" ++ c.ProjectID ++ "/locations/" ++ c.LocationID ++
      "/datasets/" ++ c.DatasetID ++ "/hl7V2Stores/" ++ c.HL7StoreID ∧
    genStoreName ⟨"", "p", "l", "d", "s", 0⟩ =
      "projects/p/locations/l/datasets/d/hl7V2Stores/s" := by
  constructor
  · apply String.ext
    simp [genStoreName, String.intercalate, String.intercalate.go, projectsPath,
      locationsPath, datasetsPath, hl7storePath]
  · rfl

/-- C5: every outbound request of Send, Get, GetByID and List carries the
header X-GOOG-API-FORMAT-VERSION with value 2. -/
theorem every_request_has_api_format_header (c : client) (t : Transport)
    (data : List Nat) (path id : String) :
    (c.Send t data).2.all eventHasApiHeader = true ∧
    (c.Get t path).2.all eventHasApiHeader = true ∧
    (c.GetByID t id).2.all eventHasApiHeader = true ∧
    (c.List t).2.all eventHasApiHeader = true :=
  ⟨rfl, rfl, rfl, rfl⟩

/-- C6: each operation takes exactly one rate-limit permit, taken before its
request is issued; GetByID, delegating to Get, also takes exactly one. -/
theorem one_permit_per_operation (c : client) (t : Transport)
    (data : List Nat) (path id : String) :
    (takeCount (c.Send t data).2 = 1 ∧ (c.Send t data).2.head? = some Event.take) ∧
    (takeCount (c.Get t path).2 = 1 ∧ (c.Get t path).2.head? = some Event.take) ∧
    (takeCount (c.GetByID t id).2 = 1 ∧ (c.GetByID t id).2.head? = some Event.take) ∧
    (takeCount (c.List t).2 = 1 ∧ (c.List t).2.head? = some Event.take) :=
  ⟨⟨rfl, rfl⟩, ⟨rfl, rfl⟩, ⟨rfl, rfl⟩, ⟨rfl, rfl⟩⟩

/-- C9: GetByID returns exactly what Get returns on the path formed from the
derived store address, "/messages/" and the id. -/
theorem GetByID_delegates_to_Get (c : client) (t : Transport) (id : String) :
    c.GetByID t id = c.Get t (specMessagePath (genStoreName c.config) id) := rfl

/-- C7: NewClient selects the fixed-rate limiter exactly when the configured
rate limit is greater than 0 and the unlimited (no-op) limiter when it is at
most 0; the selection is made once, at construction. -/
theorem NewClient_limiter_selection (si : Except String Unit) (cfg : Config) (c : client)
    (h : NewClient si cfg = .ok c) :
    (cfg.RateLimit > 0 → c.limiter = .fixedRate cfg.RateLimit) ∧
    (cfg.RateLimit ≤ 0 → c.limiter = .unlimited) := by
  unfold NewClient at h
  cases hv : cfg.Validate with
  | some e => rw [hv] at h; exact absurd h (by simp)
  | none =>
    rw [hv] at h
    cases si with
    | error e => exact absurd h (by simp)
    | ok u =>
      simp only [Except.ok.injEq] at h
      subst h
      constructor
      · intro hr
        simp only [if_pos hr]
      · intro hr
        have hn : ¬ cfg.RateLimit > 0 := by omega
        simp only [if_neg hn]

/-- C7 witness: with rate limit 7 the fixed-rate limiter is selected, with
rate limit -3 the unlimited one. -/
theorem NewClient_limiter_selection_witness :
    (⟨⟨"", "p", "l", "d", "s", 7⟩, Limiter.fixedRate 7⟩ : client).limiter =
      Limiter.fixedRate 7 ∧
    (⟨⟨"", "p", "l", "d", "s", -3⟩, Limiter.unlimited⟩ : client).limiter =
      Limiter.unlimited :=
  ⟨(NewClient_limiter_selection (.ok ()) ⟨"", "p", "l", "d", "s", 7⟩
      ⟨⟨"", "p", "l", "d", "s", 7⟩, Limiter.fixedRate 7⟩ rfl).1 (by decide),
   (NewClient_limiter_selection (.ok ()) ⟨"", "p", "l", "d", "s", -3⟩
      ⟨⟨"", "p", "l", "d", "s", -3⟩, Limiter.unlimited⟩ rfl).2 (by decide)⟩

/-- C1: on a transport whose ingest response carries a base64-encoded ack and
a resource name, Send returns the decoded ack bytes unmodified and the name
unmodified, having issued one ingest request whose data field is the
standard-base64 encoding of the input with an empty label map. -/
theorem Send_roundtrip (c : client) (t : Transport) (data ack : List Nat)
    (resp : IngestMessageResponse)
    (hack : ∀ b ∈ ack, b < 256)
    (ht : t.ingest (genStoreName c.config) (sendRequest data) [(apiFormatHeader, "2")] =
      .ok resp)
    (henc : resp.Hl7Ack = base64EncodeToString ack) :
    c.Send t data =
      ((some ack, resp.Message.Name, none),
       [Event.take, Event.request (HttpCall.ingest (genStoreName c.config)
         (sendRequest data) [(apiFormatHeader, "2")])]) ∧
    (sendRequest data).Message.Data = base64EncodeToString data ∧
    (sendRequest data).Message.Labels = [] := by
  refine ⟨?_, rfl, rfl⟩
  simp only [client.Send, ht, henc, base64_roundtrip ack hack]

/-- C1 witness: a concrete send through the mocked transport returns the
decoded ack bytes and the stored name. -/
theorem Send_roundtrip_witness :
    clientW.Send transpW [72, 105] =
      ((some ackW, respW.Message.Name, none),
       [Event.take, Event.request (HttpCall.ingest (genStoreName clientW.config)
         (sendRequest [72, 105]) [(apiFormatHeader, "2")])]) ∧
    (sendRequest [72, 105]).Message.Data = base64EncodeToString [72, 105] ∧
    (sendRequest [72, 105]).Message.Labels = [] :=
  Send_roundtrip clientW transpW [72, 105] ackW respW (by decide) rfl rfl

/-- C10: when the ingest call succeeds but the acknowledgement field is not
valid base64, Send returns the decode error together with the empty string as
resource name, discarding the resource name the response carried. -/
theorem Send_decode_error_discards_name (c : client) (t : Transport) (data : List Nat)
    (resp : IngestMessageResponse)
    (ht : t.ingest (genStoreName c.config) (sendRequest data) [(apiFormatHeader, "2")] =
      .ok resp)
    (hbad : base64DecodeString resp.Hl7Ack = none) :
    (c.Send t data).1 = (none, "", some "illegal base64 data") := by
  simp only [client.Send, ht, hbad]

/-- C10 witness: the response carried a non-empty stored name, yet Send
returns the empty string with the decode error. -/
theorem Send_decode_error_discards_name_witness :
    respBad.Message.Name = "projects/p/locations/l/datasets/d/hl7V2Stores/s/messages/m2" ∧
    (clientW.Send transpBad [72, 105]).1 = (none, "", some "illegal base64 data") :=
  ⟨rfl, Send_decode_error_discards_name clientW transpBad [72, 105] respBad rfl rfl⟩

/-- C2: checkAck returns no error exactly when the bytes parse as an HL7
message of type ACK; type NACK yields the distinct negative-acknowledgement
error, any other type the distinct unrecognized-acknowledgement error, and a
parse failure is propagated as the parse error. -/
theorem checkAck_classification (env : HL7Env) (b : List Nat) :
    (checkAck env b = none ↔
      ∃ m, env.ParseMessage b true = .ok m ∧ env.MessageType m = "ACK") ∧
    (∀ e, env.ParseMessage b true = .error e → checkAck env b = some e) ∧
    (∀ m, env.ParseMessage b true = .ok m → env.MessageType m = "NACK" →
      checkAck env b = some "receiving system returned nack") ∧
    (∀ m, env.ParseMessage b true = .ok m → env.MessageType m ≠ "ACK" →
      env.MessageType m ≠ "NACK" → checkAck env b = some "invalid ack response") ∧
    ("receiving system returned nack" : String) ≠ "invalid ack response" := by
  refine ⟨?_, ?_, ?_, ?_, by decide⟩
  · unfold checkAck
    cases hp : env.ParseMessage b true with
    | error e => simp
    | ok m =>
      show (if env.MessageType m = "ACK" then (none : Option String)
          else if env.MessageType m = "NACK" then some "receiving system returned nack"
          else some "invalid ack response") = none ↔
        ∃ m2, Except.ok m = Except.ok m2 ∧ env.MessageType m2 = "ACK"
      split_ifs with hA hN <;> simp [hA]
  · intro e hp
    simp [checkAck, hp]
  · intro m hp hN
    simp [checkAck, hp, hN]
  · intro m hp hA hN
    simp [checkAck, hp, hA, hN]

/-- C2 witness: the four classification outcomes at concrete inputs. -/
theorem checkAck_classification_witness :
    checkAck hl7EnvW [1] = none ∧
    checkAck hl7EnvW [2] = some "receiving system returned nack" ∧
    checkAck hl7EnvW [3] = some "invalid ack response" ∧
    checkAck hl7EnvW [4] = some "parse failure" :=
  ⟨(checkAck_classification hl7EnvW [1]).1.mpr ⟨⟨[["MSH"], ["MSA", "AA"]]⟩, rfl, rfl⟩,
   (checkAck_classification hl7EnvW [2]).2.2.1 ⟨[["NAK"]]⟩ rfl rfl,
   (checkAck_classification hl7EnvW [3]).2.2.2.1 ⟨[["XXX"]]⟩ rfl (by decide) (by decide),
   (checkAck_classification hl7EnvW [4]).2.1 "parse failure" rfl⟩

/-- C8: with an empty credential locator, tokenSource consults the ambient
default credential chain exactly once for the given scopes; with a non-empty
locator it propagates the read error of an unreadable file, propagates the
parse error of malformed credential material, and otherwise returns the token
source bound to the parsed credentials. -/
theorem tokenSource_resolution (env : TokenEnv) (cred : String) (scopes : List String) :
    (cred = "" → tokenSource env cred scopes =
      (env.defaultTokenSource scopes, [TokenEvent.ambientLookup scopes])) ∧
    (∀ e, cred ≠ "" → env.readFile cred = .error e →
      tokenSource env cred scopes = (.error e, [TokenEvent.fileRead cred])) ∧
    (∀ j e, cred ≠ "" → env.readFile cred = .ok j →
      env.credentialsFromJSON j scopes = .error e →
      tokenSource env cred scopes =
        (.error e, [TokenEvent.fileRead cred, TokenEvent.parseCredentials scopes])) ∧
    (∀ j cr, cred ≠ "" → env.readFile cred = .ok j →
      env.credentialsFromJSON j scopes = .ok cr →
      tokenSource env cred scopes =
        (.ok cr.TokenSource, [TokenEvent.fileRead cred, TokenEvent.parseCredentials scopes])) := by
  refine ⟨?_, ?_, ?_, ?_⟩
  · intro h
    simp [tokenSource, h]
  · intro e hc hr
    simp [tokenSource, hc, hr]
  · intro j e hc hr hp
    simp [tokenSource, hc, hr, hp]
  · intro j cr hc hr hp
    simp [tokenSource, hc, hr, hp]

/-- C8 witness: the four resolution outcomes at concrete inputs. -/
theorem tokenSource_resolution_witness :
    tokenSource tokenEnvW "" ["s1"] =
      (.ok ⟨"ambient"⟩, [TokenEvent.ambientLookup ["s1"]]) ∧
    tokenSource tokenEnvW "missing.json" ["s1"] =
      (.error "read failure", [TokenEvent.fileRead "missing.json"]) ∧
    tokenSource tokenEnvW "bad.json" ["s1"] =
      (.error "parse failure",
        [TokenEvent.fileRead "bad.json", TokenEvent.parseCredentials ["s1"]]) ∧
    tokenSource tokenEnvW "creds.json" ["s1"] =
      (.ok ⟨"file-bound"⟩,
        [TokenEvent.fileRead "creds.json", TokenEvent.parseCredentials ["s1"]]) :=
  ⟨(tokenSource_resolution tokenEnvW "" ["s1"]).1 rfl,
   (tokenSource_resolution tokenEnvW "missing.json" ["s1"]).2.1 "read failure"
     (by decide) rfl,
   (tokenSource_resolution tokenEnvW "bad.json" ["s1"]).2.2.1 [99] "parse failure"
     (by decide) rfl rfl,
   (tokenSource_resolution tokenEnvW "creds.json" ["s1"]).2.2.2 [123] ⟨⟨"file-bound"⟩⟩
     (by decide) rfl rfl⟩
